import Mathlib

/-!
Shallow embedding of the ticket lifecycle and check-in subsystem of the
tickmate backend (Event / Ticket Mongoose models, `bookTicket` and
`cancelTicket` from the attendee controller, `scanTicket` and
`getEventAttendance` from the staff controller).

Times are modelled as integer milliseconds since the epoch, money as
rationals, and MongoDB object ids as naturals.  The `_id` values MongoDB
generates at insertion are modelled by a fresh-id counter over the ticket
store, which is faithful to the storage guarantee that generated ids never
collide.
-/

namespace Tickmate

/-- Ticket status enum of `ticketSchema.status` in Ticket.js. -/
inductive TStatus
  | active
  | cancelled
  | used
  | expired
deriving DecidableEq

/-- Payment status enum of `ticketSchema.paymentStatus` in Ticket.js. -/
inductive PayStatus
  | pending
  | completed
  | failed
  | refunded
deriving DecidableEq

/-- Event status enum of `eventSchema.status` in the Event model. -/
inductive EStatus
  | draft
  | published
  | cancelled
  | completed
deriving DecidableEq

/-- The `verification` sub-document of a ticket (Ticket.js). -/
structure Verification where
  isScanned : Bool := false
  scannedAt : Option Int := none
  scannedBy : Option Nat := none
  entryTime : Option Int := none
  exitTime : Option Int := none
  scanCount : Nat := 0
deriving DecidableEq

/-- The cancellation object assigned in memory by `cancelTicket`
(authController.js lines 769-774).  `ticketSchema` declares no
`cancellation` path, so Mongoose strict mode drops the assignment at
`save()` and this record never reaches the store. -/
structure Cancellation where
  isCancelled : Bool
  cancellationDate : Int
  cancellationReason : String
  refundAmount : Rat
deriving DecidableEq

/-- The `checkInStatus` sub-document of a ticket (Ticket.js). -/
structure CheckInStatus where
  isCheckedIn : Bool := false
  checkInTime : Option Int := none
  checkedInBy : Option Nat := none
deriving DecidableEq

/-- One entry of the `staffNotes` array of a ticket (Ticket.js). -/
structure StaffNote where
  staffId : Nat
  note : String
  createdAt : Int
deriving DecidableEq

/-- A ticket document (Ticket.js schema). -/
structure Ticket where
  id : Nat
  eventId : Nat
  attendeeId : Nat
  ticketNumber : String
  qrCodeUrl : String
  qrCodeData : String
  paymentId : String
  pricePaid : Rat
  paymentStatus : PayStatus
  status : TStatus
  checkIn : CheckInStatus := {}
  bookingDate : Int := 0
  attendeeInfo : String := ""
  verification : Verification := {}
  cancellation : Option Cancellation := none
  staffNotes : List StaffNote := []
deriving DecidableEq

/-- An event document (Event model schema); `isFree` and `price` inline the
`pricing` sub-document. -/
structure Event where
  id : Nat
  title : String := ""
  startDateTime : Int
  endDateTime : Int
  isFree : Bool
  price : Rat := 0
  host : Nat := 0
  assignedStaff : List Nat := []
  capacity : Int
  ticketsSold : Int
  status : EStatus
deriving DecidableEq

/-- The persistent state shared by all requests: the Event and Ticket
collections. -/
structure DB where
  events : List Event
  tickets : List Ticket
deriving DecidableEq

/-- Model of `Event.findById`. -/
def findEvent (db : DB) (eventId : Nat) : Option Event :=
  db.events.find? fun ev => ev.id == eventId

/-- Model of `Ticket.findById` / `findOne` on `_id`. -/
def findTicketById (db : DB) (ticketId : Nat) : Option Ticket :=
  db.tickets.find? fun t => t.id == ticketId

/-- Model of the duplicate check in `bookTicket`:
`Ticket.findOne(\x7b eventId, attendeeId, status: \x7b $ne: 'cancelled' \x7d \x7d)`. -/
def hasActivePair (db : DB) (eventId attendeeId : Nat) : Bool :=
  db.tickets.any fun t =>
    t.eventId == eventId && t.attendeeId == attendeeId && !(t.status == TStatus.cancelled)

/-- Model of the unique indexes of Ticket.js enforced by the storage layer at
`ticket.save()`: the unique compound index on `(eventId, attendeeId)` over all
tickets (line 131), and the `unique: true` constraints on `ticketNumber`,
`qrCodeData` and `qrCodeUrl`. -/
def insertConflict (db : DB) (t : Ticket) : Bool :=
  db.tickets.any fun u =>
    (u.eventId == t.eventId && u.attendeeId == t.attendeeId)
      || u.ticketNumber == t.ticketNumber
      || u.qrCodeData == t.qrCodeData
      || u.qrCodeUrl == t.qrCodeUrl

/-- Fresh `_id` generation for an inserted ticket (MongoDB object ids never
collide with existing ones). -/
def freshTicketId (db : DB) : Nat :=
  (db.tickets.map Ticket.id).foldr max 0 + 1

/-- Model of `Event.findByIdAndUpdate(eventId, \x7b $inc: \x7b ticketsSold: delta \x7d \x7d)`. -/
def adjustTicketsSold (db : DB) (eventId : Nat) (delta : Int) : DB :=
  { db with
    events := db.events.map fun ev =>
      if ev.id == eventId then { ev with ticketsSold := ev.ticketsSold + delta } else ev }

/-- Model of `ticket.save()` after mutating the document found by `_id`:
every stored ticket with that id is replaced (ids are unique in a
well-formed store). -/
def replaceTicket (db : DB) (ticketId : Nat) (t1 : Ticket) : DB :=
  { db with tickets := db.tickets.map fun u => if u.id == ticketId then t1 else u }

/-- The error kinds `bookTicket` can respond with; `storageError` is the
generic 500 response produced when `ticket.save()` is rejected by a unique
index. -/
inductive BookError
  | notFound
  | eventNotBookable
  | capacityExceeded
  | duplicateBooking
  | storageError
deriving DecidableEq

/-- Outcome of `bookTicket`: a created free ticket, a redirect to payment
for paid events, or an error response. -/
inductive BookResult
  | booked (t : Ticket)
  | requiresPayment
  | err (e : BookError)
deriving DecidableEq

/-- The free ticket document constructed inside `bookTicket`. -/
def mkFreeTicket (db : DB) (now : Int) (eventId attendeeId : Nat)
    (ticketNumber qrCodeData qrCodeUrl attendeeInfo : String) : Ticket :=
  { id := freshTicketId db
    eventId := eventId
    attendeeId := attendeeId
    ticketNumber := ticketNumber
    qrCodeUrl := qrCodeUrl
    qrCodeData := qrCodeData
    paymentId := "FREE_TICKET"
    pricePaid := 0
    paymentStatus := PayStatus.completed
    status := TStatus.active
    bookingDate := now
    attendeeInfo := attendeeInfo }

/-- Model of `bookTicket` (authController.js, lines 526-650).  The freshly
generated `ticketNumber`, `qrCodeData` and `qrCodeUrl` values are supplied as
oracle inputs.  Checks run in source order: event lookup, status, start time,
capacity, duplicate booking, then the free/paid branch; on the free branch the
save is subject to the unique indexes and the event counter is incremented. -/
def bookTicket (db : DB) (now : Int) (eventId attendeeId : Nat)
    (ticketNumber qrCodeData qrCodeUrl attendeeInfo : String) : BookResult × DB :=
  match findEvent db eventId with
  | none => (BookResult.err BookError.notFound, db)
  | some ev =>
    if ev.status ≠ EStatus.published then (BookResult.err BookError.eventNotBookable, db)
    else if ev.startDateTime ≤ now then (BookResult.err BookError.eventNotBookable, db)
    else if ev.capacity ≤ ev.ticketsSold then (BookResult.err BookError.capacityExceeded, db)
    else if hasActivePair db eventId attendeeId then
      (BookResult.err BookError.duplicateBooking, db)
    else if ev.isFree then
      let t := mkFreeTicket db now eventId attendeeId ticketNumber qrCodeData qrCodeUrl attendeeInfo
      if insertConflict db t then (BookResult.err BookError.storageError, db)
      else
        (BookResult.booked t,
          adjustTicketsSold { db with tickets := db.tickets ++ [t] } eventId 1)
    else (BookResult.requiresPayment, db)

/-- The error kinds `cancelTicket` responds with: the combined 404 for a
missing, foreign or non-active ticket; the 400 inside the 24h window; and the
500 produced when the populated event is missing. -/
inductive CancelError
  | notFoundOrNotCancellable
  | insideWindow
  | internalError
deriving DecidableEq

/-- Outcome of `cancelTicket`; `ok` carries the refund amount returned in the
response body. -/
inductive CancelResult
  | ok (refundAmount : Rat)
  | err (e : CancelError)
deriving DecidableEq

/-- Milliseconds in one hour, the divisor in the cancellation window check. -/
def msPerHour : Int := 1000 * 60 * 60

/-- Model of `Ticket.findOne(\x7b _id, attendeeId, status: 'active' \x7d)`. -/
def findCancellable (db : DB) (ticketId attendeeId : Nat) : Option Ticket :=
  db.tickets.find? fun t =>
    t.id == ticketId && t.attendeeId == attendeeId && t.status == TStatus.active

/-- The persisted effect of `ticket.save()` in `cancelTicket`: the
controller sets `status = 'cancelled'` and also assigns a `cancellation`
object, but `ticketSchema` declares no `cancellation` path, so Mongoose
strict mode silently drops that assignment at save and only the status
change reaches the store. -/
def cancelledTicket (t : Ticket) : Ticket :=
  { t with status := TStatus.cancelled }

/-- Model of `cancelTicket` (authController.js, lines 737-811).  The JS
check `hoursUntilEvent < 24` on `(start - now) / 3600000` is equivalent to the
integer comparison `start - now < 24 * 3600000`.  The `reason` body field is
received but its only use is the cancellation assignment that strict-mode
save drops, so it has no persisted effect. -/
def cancelTicket (db : DB) (now : Int) (ticketId attendeeId : Nat)
    (reason : Option String) : CancelResult × DB :=
  match findCancellable db ticketId attendeeId with
  | none => (CancelResult.err CancelError.notFoundOrNotCancellable, db)
  | some t =>
    match findEvent db t.eventId with
    | none => (CancelResult.err CancelError.internalError, db)
    | some ev =>
      if ev.startDateTime - now < 24 * msPerHour then
        (CancelResult.err CancelError.insideWindow, db)
      else
        (CancelResult.ok t.pricePaid,
          adjustTicketsSold (replaceTicket db t.id (cancelledTicket t)) t.eventId (-1))

/-- The scan actions accepted by `scanTicket` (`action = 'entry' | 'exit'`). -/
inductive ScanAction
  | entry
  | exit
deriving DecidableEq

/-- The error kinds of the staff endpoints: missing lookup key (400), ticket
not found (404), staff not assigned (403), inactive ticket, event window
violations, exit without entry, and the 500 raised when the populated event is
missing. -/
inductive ScanError
  | missingKey
  | notFound
  | staffNotAssigned
  | ticketNotActive
  | eventNotStarted
  | eventEnded
  | notCheckedIn
  | internalError
deriving DecidableEq

/-- The data object of a successful scan response. -/
structure ScanData where
  ticketNumber : String
  verification : Verification
  scanCount : Nat
  isFirstScan : Bool
deriving DecidableEq

/-- Outcome of `scanTicket`. -/
inductive ScanResult
  | ok (d : ScanData)
  | err (e : ScanError)
deriving DecidableEq

/-- The lookup query built by `scanTicket`: `ticketNumber` when present, else
`qrCodeData`, with an optional `eventId` filter. -/
def ticketQuery (ticketNumber qrCodeData : Option String) (eventIdHint : Option Nat)
    (t : Ticket) : Bool :=
  (match ticketNumber with
   | some tn => t.ticketNumber == tn
   | none =>
     match qrCodeData with
     | some qd => t.qrCodeData == qd
     | none => true)
  && (match eventIdHint with
      | some e => t.eventId == e
      | none => true)

/-- Model of `scanTicket` (staff controller, lines 57-188).  For `entry` on an
already-scanned ticket only `scanCount` is incremented; a first `entry` scan
sets the verification fields; `exit` requires a previous entry scan and sets
`exitTime`.  The response reports `isFirstScan` as `scanCount === 1` after the
update. -/
def scanTicket (db : DB) (now : Int) (ticketNumber qrCodeData : Option String)
    (eventIdHint : Option Nat) (staffId : Nat) (action : ScanAction) : ScanResult × DB :=
  if ticketNumber = none ∧ qrCodeData = none then (ScanResult.err ScanError.missingKey, db)
  else
    match db.tickets.find? (ticketQuery ticketNumber qrCodeData eventIdHint) with
    | none => (ScanResult.err ScanError.notFound, db)
    | some t =>
      match findEvent db t.eventId with
      | none => (ScanResult.err ScanError.internalError, db)
      | some ev =>
        if ¬ ev.assignedStaff.contains staffId then
          (ScanResult.err ScanError.staffNotAssigned, db)
        else if t.status ≠ TStatus.active then (ScanResult.err ScanError.ticketNotActive, db)
        else if action = ScanAction.entry ∧ now < ev.startDateTime then
          (ScanResult.err ScanError.eventNotStarted, db)
        else if ev.endDateTime < now then (ScanResult.err ScanError.eventEnded, db)
        else
          match action with
          | ScanAction.entry =>
            let v := t.verification
            let v1 :=
              if v.isScanned then { v with scanCount := v.scanCount + 1 }
              else
                { v with
                  isScanned := true
                  scannedAt := some now
                  scannedBy := some staffId
                  entryTime := some now
                  scanCount := 1 }
            let t1 := { t with verification := v1 }
            (ScanResult.ok
              { ticketNumber := t.ticketNumber
                verification := v1
                scanCount := v1.scanCount
                isFirstScan := v1.scanCount == 1 },
              replaceTicket db t.id t1)
          | ScanAction.exit =>
            if ¬ t.verification.isScanned then (ScanResult.err ScanError.notCheckedIn, db)
            else
              let v1 := { t.verification with exitTime := some now }
              let t1 := { t with verification := v1 }
              (ScanResult.ok
                { ticketNumber := t.ticketNumber
                  verification := v1
                  scanCount := v1.scanCount
                  isFirstScan := v1.scanCount == 1 },
                replaceTicket db t.id t1)

/-- Model of `((scanned / total) * 100).toFixed(2)` as an exact count of
hundredths of a percentage point: the value `v` rendered by `toFixed(2)`
satisfies `v = toFixed2Centi scanned total / 100`.  On the exact rational
`scanned / total * 100` the ECMA rounding (nearest, ties toward the larger
value) is floor of the scaled value plus one half, which over the integers
is the division below. -/
def toFixed2Centi (scanned total : Nat) : Nat :=
  (20000 * scanned + total) / (2 * total)

/-- The statistics object of `getEventAttendance`; `attendanceRateCenti` is
the reported `attendanceRate` scaled by 100 to hundredths (so `50.00`
percent is stored as `5000`). -/
structure AttendanceStats where
  totalTickets : Nat
  scannedTickets : Nat
  unscannedTickets : Nat
  attendanceRateCenti : Nat
deriving DecidableEq

/-- Outcome of `getEventAttendance`. -/
inductive AttendanceResult
  | ok (s : AttendanceStats)
  | err (e : ScanError)
deriving DecidableEq

/-- Model of `getEventAttendance` (staff controller, lines 193-281): a
read-only aggregation over the event's active tickets, guarded by staff
assignment.  `attendanceRate` is `(scanned / total) * 100` rounded to two
decimals, `0` when no active ticket exists. -/
def getEventAttendance (db : DB) (eventId staffId : Nat) : AttendanceResult :=
  match findEvent db eventId with
  | none => AttendanceResult.err ScanError.notFound
  | some ev =>
    if ¬ ev.assignedStaff.contains staffId then AttendanceResult.err ScanError.staffNotAssigned
    else
      let ts := db.tickets.filter fun t => t.eventId == eventId && t.status == TStatus.active
      let total := ts.length
      let scanned := (ts.filter fun t => t.verification.isScanned).length
      AttendanceResult.ok
        { totalTickets := total
          scannedTickets := scanned
          unscannedTickets := total - scanned
          attendanceRateCenti := if 0 < total then toFixed2Centi scanned total else 0 }

/-!
Interleaved execution model for `bookTicket`.

Each HTTP request runs the controller body with `await` points between the
database operations; requests therefore interleave at those points.  A free
booking performs four atomic storage operations in order: the event read
(with the pure status/start/capacity checks on the returned snapshot), the
duplicate-ticket read, the ticket insert (where the unique indexes apply
atomically) and the `$inc` on the event counter.
-/

/-- The parameters of one booking request in the interleaved model; the fresh
id and generated ticket identifiers are fixed per request. -/
structure BookReq where
  eventId : Nat
  attendeeId : Nat
  ticketId : Nat
  ticketNumber : String
  qrCodeData : String
  qrCodeUrl : String
  attendeeInfo : String
deriving DecidableEq

/-- The ticket document a request inserts on its free path. -/
def reqTicket (now : Int) (r : BookReq) : Ticket :=
  { id := r.ticketId
    eventId := r.eventId
    attendeeId := r.attendeeId
    ticketNumber := r.ticketNumber
    qrCodeUrl := r.qrCodeUrl
    qrCodeData := r.qrCodeData
    paymentId := "FREE_TICKET"
    pricePaid := 0
    paymentStatus := PayStatus.completed
    status := TStatus.active
    bookingDate := now
    attendeeInfo := r.attendeeInfo }

/-- Final outcome of one interleaved booking request. -/
inductive ROutcome
  | success
  | requiresPayment
  | failed (e : BookError)
deriving DecidableEq

/-- Control point of one booking request between its atomic storage
operations. -/
inductive RPhase
  | preCheck
  | preDup (isFree : Bool)
  | preInsert
  | preIncr
  | finished (r : ROutcome)
deriving DecidableEq

/-- One atomic step of a booking request: the same checks as `bookTicket`,
split at the controller's await points. -/
def rstep (now : Int) (r : BookReq) : RPhase → DB → RPhase × DB
  | RPhase.preCheck, db =>
    match findEvent db r.eventId with
    | none => (RPhase.finished (ROutcome.failed BookError.notFound), db)
    | some ev =>
      if ev.status ≠ EStatus.published then
        (RPhase.finished (ROutcome.failed BookError.eventNotBookable), db)
      else if ev.startDateTime ≤ now then
        (RPhase.finished (ROutcome.failed BookError.eventNotBookable), db)
      else if ev.capacity ≤ ev.ticketsSold then
        (RPhase.finished (ROutcome.failed BookError.capacityExceeded), db)
      else (RPhase.preDup ev.isFree, db)
  | RPhase.preDup isFree, db =>
    if hasActivePair db r.eventId r.attendeeId then
      (RPhase.finished (ROutcome.failed BookError.duplicateBooking), db)
    else if isFree then (RPhase.preInsert, db)
    else (RPhase.finished ROutcome.requiresPayment, db)
  | RPhase.preInsert, db =>
    if insertConflict db (reqTicket now r) then
      (RPhase.finished (ROutcome.failed BookError.storageError), db)
    else (RPhase.preIncr, { db with tickets := db.tickets ++ [reqTicket now r] })
  | RPhase.preIncr, db => (RPhase.finished ROutcome.success, adjustTicketsSold db r.eventId 1)
  | RPhase.finished r0, db => (RPhase.finished r0, db)

/-- Joint state of two interleaved booking requests. -/
structure Sched2State where
  phase1 : RPhase
  phase2 : RPhase
  db : DB
deriving DecidableEq

/-- Advance one of the two requests by one atomic step. -/
def sched2Step (now : Int) (r1 r2 : BookReq) (s : Sched2State) (pick : Bool) : Sched2State :=
  if pick then
    let p := rstep now r2 s.phase2 s.db
    { s with phase2 := p.1, db := p.2 }
  else
    let p := rstep now r1 s.phase1 s.db
    { s with phase1 := p.1, db := p.2 }

/-- Run two booking requests under an explicit interleaving schedule
(`false` advances the first request, `true` the second). -/
def runSched2 (now : Int) (r1 r2 : BookReq) (db : DB) (sched : List Bool) : Sched2State :=
  sched.foldl (sched2Step now r1 r2) { phase1 := RPhase.preCheck, phase2 := RPhase.preCheck, db := db }

/-- Number of non-cancelled tickets stored for an event: the quantity that the
`$inc` updates of `bookTicket` and `cancelTicket` track in `ticketsSold`. -/
def soldCount (db : DB) (e : Nat) : Nat :=
  db.tickets.countP fun t => t.eventId == e && !(t.status == TStatus.cancelled)

/-- Well-formedness of the shared state: ids are unique in both collections
and every event's `ticketsSold` equals its stored non-cancelled ticket count
and respects its capacity. -/
def ConsistentDB (db : DB) : Prop :=
  (db.events.map Event.id).Nodup ∧ (db.tickets.map Ticket.id).Nodup ∧
    ∀ ev ∈ db.events, ev.ticketsSold = (soldCount db ev.id : Int)
      ∧ ev.ticketsSold ≤ ev.capacity

/-- One attendee-facing ledger operation: a booking or a cancellation
request with all its inputs. -/
inductive LedgerOp
  | book (now : Int) (eventId attendeeId : Nat)
      (ticketNumber qrCodeData qrCodeUrl attendeeInfo : String)
  | cancel (now : Int) (ticketId attendeeId : Nat) (reason : Option String)
deriving DecidableEq

/-- State reached after one ledger operation. -/
def applyOp (db : DB) : LedgerOp → DB
  | LedgerOp.book now e a tn qd qu ai => (bookTicket db now e a tn qd qu ai).2
  | LedgerOp.cancel now tid a r => (cancelTicket db now tid a r).2

/-- State reached after a sequence of ledger operations. -/
def runOps (db : DB) (ops : List LedgerOp) : DB := ops.foldl applyOp db

/-!
Concrete states used to instantiate the theorems.
-/

/-- A published free event: capacity 2, nothing sold, staff 5 and 6
assigned, running from t = 200000000 to t = 300000000. -/
def evFree : Event :=
  { id := 1
    startDateTime := 200000000
    endDateTime := 300000000
    isFree := false
    assignedStaff := [5, 6]
    capacity := 2
    ticketsSold := 0
    status := EStatus.published }

/-- The same event with the free flag set. -/
def evFreeF : Event := { evFree with isFree := true }

/-- A paid published event. -/
def evPaid : Event := { evFree with id := 2, isFree := false, price := 50 }

/-- State with one bookable free event and no tickets. -/
def dbEmpty : DB := { events := [evFreeF], tickets := [] }

/-- A cancelled ticket of attendee 2 for event 1. -/
def tCancelled : Ticket :=
  { id := 7
    eventId := 1
    attendeeId := 2
    ticketNumber := "T0"
    qrCodeUrl := "U0"
    qrCodeData := "Q0"
    paymentId := "FREE_TICKET"
    pricePaid := 0
    paymentStatus := PayStatus.completed
    status := TStatus.cancelled }

/-- State where attendee 2 holds a cancelled ticket for event 1. -/
def dbCancelled : DB := { events := [evFreeF], tickets := [tCancelled] }

/-- An active ticket of attendee 2 for event 1. -/
def tActive : Ticket := { tCancelled with id := 8, status := TStatus.active }

/-- State where attendee 2 holds an active ticket for event 1. -/
def dbActive : DB := { events := [evFreeF], tickets := [tActive] }

/-- An active, already-scanned ticket (scanned once by staff 5). -/
def tScanned : Ticket :=
  { id := 1
    eventId := 1
    attendeeId := 2
    ticketNumber := "T1"
    qrCodeUrl := "U1"
    qrCodeData := "Q1"
    paymentId := "FREE_TICKET"
    pricePaid := 0
    paymentStatus := PayStatus.completed
    status := TStatus.active
    verification :=
      { isScanned := true
        scannedAt := some 210000000
        scannedBy := some 5
        entryTime := some 210000000
        scanCount := 1 } }

/-- An active, never-scanned ticket of attendee 3 for event 1. -/
def tUnscanned : Ticket :=
  { id := 2
    eventId := 1
    attendeeId := 3
    ticketNumber := "T2"
    qrCodeUrl := "U2"
    qrCodeData := "Q2"
    paymentId := "FREE_TICKET"
    pricePaid := 0
    paymentStatus := PayStatus.completed
    status := TStatus.active }

/-- State with a sold-out free event: one scanned and one unscanned active
ticket. -/
def dbScan : DB := { events := [{ evFreeF with ticketsSold := 2 }], tickets := [tScanned, tUnscanned] }

/-- The operation sequence of the C1 witness: two bookings, one
cancellation, one re-booking by a fresh attendee. -/
def wOps : List LedgerOp :=
  [LedgerOp.book 0 1 2 "T1" "Q1" "U1" "",
   LedgerOp.book 0 1 3 "T2" "Q2" "U2" "",
   LedgerOp.cancel 113600000 1 2 none,
   LedgerOp.book 0 1 4 "T3" "Q3" "U3" ""]

/-- A request phase that lies strictly after a successful ticket insert. -/
def pastInsert : RPhase → Prop
  | RPhase.preIncr => True
  | RPhase.finished ROutcome.success => True
  | _ => False

/-- Some ticket for the pair is stored. -/
def pairIn (db : DB) (e a : Nat) : Prop :=
  ∃ u ∈ db.tickets, u.eventId = e ∧ u.attendeeId = a

/-- Invariant for two interleaved bookings of the same pair: whoever is past
its insert has put a pair ticket into the store, and at most one request is
past its insert. -/
def SamePairInv (e a : Nat) (s : Sched2State) : Prop :=
  (pastInsert s.phase1 → pairIn s.db e a)
  ∧ (pastInsert s.phase2 → pairIn s.db e a)
  ∧ ¬(pastInsert s.phase1 ∧ pastInsert s.phase2)

/-- A free published event with capacity 1 and nothing sold. -/
def evRace : Event := { evFreeF with capacity := 1 }

/-- State with only the capacity-1 event. -/
def dbRace : DB := { events := [evRace], tickets := [] }

/-- First concurrent booking request (attendee 2). -/
def rqA : BookReq :=
  { eventId := 1
    attendeeId := 2
    ticketId := 11
    ticketNumber := "TA"
    qrCodeData := "QA"
    qrCodeUrl := "UA"
    attendeeInfo := "" }

/-- Second concurrent booking request by a different attendee. -/
def rqB : BookReq :=
  { rqA with
    attendeeId := 3
    ticketId := 12
    ticketNumber := "TB"
    qrCodeData := "QB"
    qrCodeUrl := "UB" }

/-- A concurrent booking request for the same pair as `rqA`. -/
def rqADup : BookReq :=
  { rqA with
    ticketId := 13
    ticketNumber := "TC"
    qrCodeData := "QC"
    qrCodeUrl := "UC" }

/-- The alternating schedule: both requests pass their checks before either
writes. -/
def raceSched : List Bool := [false, true, false, true, false, true, false, true]

/-!
Helper lemmas about the storage primitives and the claim theorems.
-/

/-- Bounding elements by a right fold with `max`. -/
lemma le_foldr_max (l : List Nat) (x : Nat) (h : x ∈ l) : x ≤ l.foldr max 0 := by
  induction l with
  | nil => cases h
  | cons a l ih =>
    rcases List.mem_cons.mp h with rfl | h2
    · exact le_max_left _ _
    · exact le_trans (ih h2) (le_max_right _ _)

/-- A freshly generated ticket id differs from every stored ticket id. -/
lemma id_lt_freshTicketId (db : DB) (u : Ticket) (hu : u ∈ db.tickets) :
    u.id < freshTicketId db := by
  have : u.id ≤ (db.tickets.map Ticket.id).foldr max 0 :=
    le_foldr_max _ _ (List.mem_map_of_mem _ hu)
  unfold freshTicketId
  omega

/-- Adjusting the sold counter leaves the ticket store unchanged. -/
lemma adjustTicketsSold_tickets (db : DB) (e : Nat) (d : Int) :
    (adjustTicketsSold db e d).tickets = db.tickets := rfl

/-- Replacing a ticket leaves the event store unchanged. -/
lemma replaceTicket_events (db : DB) (tid : Nat) (t1 : Ticket) :
    (replaceTicket db tid t1).events = db.events := rfl

/-- Adjusting the sold counter preserves the list of event ids. -/
lemma adjustTicketsSold_map_id (db : DB) (e : Nat) (d : Int) :
    (adjustTicketsSold db e d).events.map Event.id = db.events.map Event.id := by
  show (db.events.map _).map Event.id = _
  induction db.events with
  | nil => rfl
  | cons a l ih =>
    simp only [List.map_cons, ih, List.cons.injEq, and_true]
    by_cases h : a.id = e <;> simp [h]

/-- Replacing a ticket by an update with the same id preserves the list of
ticket ids. -/
lemma replaceTicket_map_id (db : DB) (tid : Nat) (t1 : Ticket) (h1 : t1.id = tid) :
    (replaceTicket db tid t1).tickets.map Ticket.id = db.tickets.map Ticket.id := by
  show (db.tickets.map _).map Ticket.id = _
  induction db.tickets with
  | nil => rfl
  | cons a l ih =>
    simp only [List.map_cons, ih, List.cons.injEq, and_true]
    by_cases h : a.id = tid <;> simp [h, h1]

/-- Members sharing the image under an injective-on-the-list map are equal. -/
lemma eq_of_mem_map_nodup {α β : Type} {f : α → β} {l : List α}
    (hn : (l.map f).Nodup) {a b : α} (ha : a ∈ l) (hb : b ∈ l) (hid : f a = f b) : a = b := by
  induction l with
  | nil => cases ha
  | cons x l ih =>
    rw [List.map_cons] at hn
    have hx := List.nodup_cons.mp hn
    rcases List.mem_cons.mp ha with rfl | ha2
    · rcases List.mem_cons.mp hb with rfl | hb2
      · rfl
      · exact absurd (by rw [hid]; exact List.mem_map_of_mem f hb2) hx.1
    · rcases List.mem_cons.mp hb with rfl | hb2
      · exact absurd (by rw [← hid]; exact List.mem_map_of_mem f ha2) hx.1
      · exact ih hx.2 ha2 hb2

/-- The event returned by `findEvent` is a member carrying the requested id. -/
lemma findEvent_mem {db : DB} {e : Nat} {ev : Event} (h : findEvent db e = some ev) :
    ev ∈ db.events ∧ ev.id = e := by
  refine ⟨List.mem_of_find?_eq_some h, ?_⟩
  have := List.find?_some h
  simpa using this

/-- Updating the matching element of an event list commutes with a successful
id lookup. -/
lemma find?_map_update_self (l : List Event) (e : Nat) (d : Int) (ev : Event)
    (h : l.find? (fun x => x.id == e) = some ev) :
    (l.map fun x =>
        if x.id == e then { x with ticketsSold := x.ticketsSold + d } else x).find?
        (fun x => x.id == e)
      = some { ev with ticketsSold := ev.ticketsSold + d } := by
  induction l with
  | nil => simp at h
  | cons a l ih =>
    by_cases hb : a.id = e
    · rw [List.find?_cons_of_pos _ (by simpa using hb)] at h
      cases h
      rw [List.map_cons, if_pos (by simpa using hb)]
      exact List.find?_cons_of_pos _ (by simpa using hb)
    · rw [List.find?_cons_of_neg _ (by simpa using hb)] at h
      rw [List.map_cons, if_neg (by simpa using hb),
        List.find?_cons_of_neg _ (by simpa using hb)]
      exact ih h

/-- Looking up the adjusted event returns it with the shifted counter. -/
lemma findEvent_adjustTicketsSold_self {db : DB} {e : Nat} (d : Int) {ev : Event}
    (h : findEvent db e = some ev) :
    findEvent (adjustTicketsSold db e d) e
      = some { ev with ticketsSold := ev.ticketsSold + d } :=
  find?_map_update_self db.events e d ev h

/-- Updating one id's element does not affect lookups for another id. -/
lemma find?_map_update_other (l : List Event) (e : Nat) (d : Int) (e2 : Nat)
    (hne : e2 ≠ e) :
    (l.map fun x =>
        if x.id == e then { x with ticketsSold := x.ticketsSold + d } else x).find?
        (fun x => x.id == e2)
      = l.find? (fun x => x.id == e2) := by
  induction l with
  | nil => rfl
  | cons a l ih =>
    by_cases hb : a.id = e2
    · have hae : ¬ a.id = e := fun h => hne (by rw [← hb, h])
      rw [List.map_cons, if_neg (by simpa using hae),
        List.find?_cons_of_pos _ (by simpa using hb),
        List.find?_cons_of_pos _ (by simpa using hb)]
    · by_cases hae : a.id = e
      · rw [List.map_cons, if_pos (by simpa using hae),
          List.find?_cons_of_neg _ (by simpa using hb),
          List.find?_cons_of_neg _ (by simpa using hb)]
        exact ih
      · rw [List.map_cons, if_neg (by simpa using hae),
          List.find?_cons_of_neg _ (by simpa using hb),
          List.find?_cons_of_neg _ (by simpa using hb)]
        exact ih

/-- Adjusting one event's counter does not affect lookups of other events. -/
lemma findEvent_adjustTicketsSold_other (db : DB) (e : Nat) (d : Int) (e2 : Nat)
    (hne : e2 ≠ e) :
    findEvent (adjustTicketsSold db e d) e2 = findEvent db e2 :=
  find?_map_update_other db.events e d e2 hne

/-- Replacement map is the identity on a list with no matching id. -/
lemma map_replace_eq_self (tid : Nat) (t1 : Ticket) :
    ∀ l : List Ticket, (∀ u ∈ l, ¬(u.id == tid) = true) →
      (l.map fun u => if u.id == tid then t1 else u) = l := by
  intro l
  induction l with
  | nil => intro h; rfl
  | cons b l ihb =>
    intro h
    rw [List.map_cons, if_neg (h b (List.mem_cons_self b l)),
      ihb fun u hu => h u (List.mem_cons_of_mem b hu)]

/-- Replacing the unique element carrying an id alters `countP` by swapping
the element's contribution for its replacement's. -/
lemma countP_map_replace (p : Ticket → Bool) (tid : Nat) (t1 : Ticket) (l : List Ticket)
    (hn : (l.map Ticket.id).Nodup) (t : Ticket) (ht : t ∈ l) (hid : t.id = tid) :
    (l.map fun u => if u.id == tid then t1 else u).countP p
        + (if p t then 1 else 0)
      = l.countP p + (if p t1 then 1 else 0) := by
  induction l with
  | nil => cases ht
  | cons a l ih =>
    rw [List.map_cons] at hn
    have hx := List.nodup_cons.mp hn
    rcases List.mem_cons.mp ht with rfl | ht2
    · have hrest : ∀ u ∈ l, ¬(u.id == tid) = true := by
        intro u hu hc
        refine hx.1 ?_
        have hu2 : u.id = tid := by simpa using hc
        rw [hid, ← hu2]
        exact List.mem_map_of_mem Ticket.id hu
      rw [List.map_cons, if_pos (by simpa using hid), map_replace_eq_self tid t1 l hrest,
        List.countP_cons, List.countP_cons]
      omega
    · have hane : ¬(a.id == tid) = true := by
        intro hc
        refine hx.1 ?_
        have ha2 : a.id = tid := by simpa using hc
        rw [ha2, ← hid]
        exact List.mem_map_of_mem Ticket.id ht2
      rw [List.map_cons, if_neg hane, List.countP_cons, List.countP_cons]
      have := ih hx.2 ht2
      omega

/-- Appending a ticket adds its contribution to `countP`. -/
lemma countP_append_single (p : Ticket → Bool) (l : List Ticket) (t : Ticket) :
    (l ++ [t]).countP p = l.countP p + (if p t then 1 else 0) := by
  rw [List.countP_append, List.countP_cons, List.countP_nil]
  omega

/-- Adjusting a counter does not change any stored ticket, hence no count. -/
lemma soldCount_adjustTicketsSold (db : DB) (e : Nat) (d : Int) (x : Nat) :
    soldCount (adjustTicketsSold db e d) x = soldCount db x := rfl

/-- Inserting a fresh non-cancelled ticket for an event with spare capacity
and incrementing that event's counter preserves consistency. -/
lemma consistent_insert_adjust (db : DB) (e : Nat) (ev : Event) (t : Ticket)
    (h : ConsistentDB db)
    (hfind : findEvent db e = some ev)
    (hcap : ev.ticketsSold < ev.capacity)
    (hte : t.eventId = e)
    (hts : ¬ t.status = TStatus.cancelled)
    (hfresh : ∀ u ∈ db.tickets, u.id ≠ t.id) :
    ConsistentDB (adjustTicketsSold { db with tickets := db.tickets ++ [t] } e 1) := by
  obtain ⟨hne, hnt, hsold⟩ := h
  obtain ⟨hevm, hevid⟩ := findEvent_mem hfind
  refine ⟨?_, ?_, ?_⟩
  · rw [adjustTicketsSold_map_id]
    exact hne
  · rw [adjustTicketsSold_tickets]
    show ((db.tickets ++ [t]).map Ticket.id).Nodup
    rw [List.map_append, List.map_singleton, List.nodup_append]
    refine ⟨hnt, List.nodup_singleton _, ?_⟩
    intro x hx
    simp only [List.mem_singleton]
    obtain ⟨u, hu, rfl⟩ := List.mem_map.mp hx
    intro hcontra
    exact hfresh u hu hcontra
  · intro ev2 hev2
    obtain ⟨ev0, hev0, rfl⟩ := List.mem_map.mp hev2
    have hsold2 : ∀ x : Nat,
        soldCount (adjustTicketsSold { db with tickets := db.tickets ++ [t] } e 1) x
          = soldCount db x
            + (if (t.eventId == x && !(t.status == TStatus.cancelled)) then 1 else 0) := by
      intro x
      show ((db.tickets ++ [t]).countP _) = _
      rw [countP_append_single]
      rfl
    by_cases hb : ev0.id = e
    · have hev0eq : ev0 = ev := eq_of_mem_map_nodup hne hev0 hevm (by rw [hb, hevid])
      subst hev0eq
      rw [if_pos (by simpa using hb)]
      have hcount : soldCount (adjustTicketsSold { db with tickets := db.tickets ++ [t] } e 1) ev0.id
          = soldCount db ev0.id + 1 := by
        rw [hsold2 ev0.id,
          if_pos (show (t.eventId == ev0.id && !(t.status == TStatus.cancelled)) = true by
            simp [hte, hb, hts])]
      constructor
      · show ev0.ticketsSold + 1
          = (soldCount (adjustTicketsSold { db with tickets := db.tickets ++ [t] } e 1) ev0.id : Int)
        rw [hcount, (hsold ev0 hev0).1]
        push_cast
        ring
      · show ev0.ticketsSold + 1 ≤ ev0.capacity
        have h1 := (hsold ev0 hev0).1
        omega
    · rw [if_neg (by simpa using hb)]
      have hcount : soldCount (adjustTicketsSold { db with tickets := db.tickets ++ [t] } e 1) ev0.id
          = soldCount db ev0.id := by
        rw [hsold2 ev0.id,
          if_neg (show ¬((t.eventId == ev0.id && !(t.status == TStatus.cancelled)) = true) by
            simp only [Bool.and_eq_true, beq_iff_eq, hte]
            intro hc
            exact hb hc.1.symm)]
        omega
      rw [hcount]
      exact hsold ev0 hev0

/-- Cancelling a stored active ticket and decrementing its event's counter
preserves consistency. -/
lemma consistent_replace_adjust (db : DB) (ev : Event) (t t1 : Ticket)
    (h : ConsistentDB db)
    (hfind : findEvent db t.eventId = some ev)
    (htm : t ∈ db.tickets)
    (hts : ¬ t.status = TStatus.cancelled)
    (ht1id : t1.id = t.id)
    (ht1e : t1.eventId = t.eventId)
    (ht1s : t1.status = TStatus.cancelled) :
    ConsistentDB (adjustTicketsSold (replaceTicket db t.id t1) t.eventId (-1)) := by
  obtain ⟨hne, hnt, hsold⟩ := h
  obtain ⟨hevm, hevid⟩ := findEvent_mem hfind
  refine ⟨?_, ?_, ?_⟩
  · rw [adjustTicketsSold_map_id, replaceTicket_events]
    exact hne
  · rw [adjustTicketsSold_tickets]
    rw [replaceTicket_map_id db t.id t1 ht1id]
    exact hnt
  · intro ev2 hev2
    obtain ⟨ev0, hev0, rfl⟩ := List.mem_map.mp hev2
    rw [replaceTicket_events] at hev0
    have hrepl : ∀ x : Nat,
        soldCount (replaceTicket db t.id t1) x
            + (if (t.eventId == x && !(t.status == TStatus.cancelled)) then 1 else 0)
          = soldCount db x
            + (if (t1.eventId == x && !(t1.status == TStatus.cancelled)) then 1 else 0) := by
      intro x
      exact countP_map_replace _ t.id t1 db.tickets hnt t htm rfl
    by_cases hb : ev0.id = t.eventId
    · have hev0eq : ev0 = ev := eq_of_mem_map_nodup hne hev0 hevm (by rw [hb, hevid])
      subst hev0eq
      rw [if_pos (by simpa using hb)]
      have hkey := hrepl ev0.id
      rw [if_pos (show (t.eventId == ev0.id && !(t.status == TStatus.cancelled)) = true by
          simp [hb, hts]),
        if_neg (show ¬((t1.eventId == ev0.id && !(t1.status == TStatus.cancelled)) = true) by
          simp [ht1s])] at hkey
      have hcount : soldCount (adjustTicketsSold (replaceTicket db t.id t1) t.eventId (-1)) ev0.id
          = soldCount (replaceTicket db t.id t1) ev0.id :=
        soldCount_adjustTicketsSold _ _ _ _
      constructor
      · show ev0.ticketsSold + (-1)
          = (soldCount (adjustTicketsSold (replaceTicket db t.id t1) t.eventId (-1)) ev0.id : Int)
        rw [hcount]
        have h1 := (hsold ev0 hev0).1
        omega
      · show ev0.ticketsSold + (-1) ≤ ev0.capacity
        have h2 := (hsold ev0 hev0).2
        omega
    · rw [if_neg (by simpa using hb)]
      have hkey := hrepl ev0.id
      rw [if_neg (show ¬((t.eventId == ev0.id && !(t.status == TStatus.cancelled)) = true) by
          simp only [Bool.and_eq_true, beq_iff_eq]
          intro hc
          exact hb hc.1.symm),
        if_neg (show ¬((t1.eventId == ev0.id && !(t1.status == TStatus.cancelled)) = true) by
          simp only [Bool.and_eq_true, beq_iff_eq, ht1e]
          intro hc
          exact hb hc.1.symm)] at hkey
      have hcount : soldCount (adjustTicketsSold (replaceTicket db t.id t1) t.eventId (-1)) ev0.id
          = soldCount db ev0.id := by
        rw [soldCount_adjustTicketsSold]
        omega
      rw [hcount]
      exact hsold ev0 hev0

/-- Booking preserves state consistency. -/
lemma consistent_bookTicket (db : DB) (h : ConsistentDB db) (now : Int) (e a : Nat)
    (tn qd qu ai : String) : ConsistentDB (bookTicket db now e a tn qd qu ai).2 := by
  unfold bookTicket
  cases hfind : findEvent db e with
  | none => exact h
  | some ev =>
    simp only
    split_ifs with h1 h2 h3 h4 h5 h6
    any_goals exact h
    refine consistent_insert_adjust db e ev _ h hfind (by omega) rfl ?_ ?_
    · intro hc
      cases hc
    · intro u hu
      have := id_lt_freshTicketId db u hu
      show u.id ≠ freshTicketId db
      omega

/-- Cancelling preserves state consistency. -/
lemma consistent_cancelTicket (db : DB) (h : ConsistentDB db) (now : Int) (tid a : Nat)
    (reason : Option String) : ConsistentDB (cancelTicket db now tid a reason).2 := by
  cases hfindc : findCancellable db tid a with
  | none =>
    simp only [cancelTicket, hfindc]
    exact h
  | some t =>
    have htp := List.find?_some hfindc
    have htm := List.mem_of_find?_eq_some hfindc
    simp only [Bool.and_eq_true, beq_iff_eq] at htp
    cases hfindev : findEvent db t.eventId with
    | none =>
      simp only [cancelTicket, hfindc, hfindev]
      exact h
    | some ev =>
      simp only [cancelTicket, hfindc, hfindev]
      split_ifs with h1
      · exact h
      · exact consistent_replace_adjust db ev t _ h hfindev htm
          (by simp [htp.2]) rfl rfl rfl

/-- Every single ledger operation preserves consistency. -/
lemma consistent_applyOp (db : DB) (h : ConsistentDB db) (op : LedgerOp) :
    ConsistentDB (applyOp db op) := by
  cases op with
  | book now e a tn qd qu ai => exact consistent_bookTicket db h now e a tn qd qu ai
  | cancel now tid a r => exact consistent_cancelTicket db h now tid a r

/-- Every sequence of ledger operations preserves consistency. -/
lemma consistent_runOps (db : DB) (h : ConsistentDB db) (ops : List LedgerOp) :
    ConsistentDB (runOps db ops) := by
  induction ops generalizing db with
  | nil => exact h
  | cons op ops ih => exact ih _ (consistent_applyOp db h op)

/-- The duplicate check passes when no pair ticket exists at all. -/
lemma hasActivePair_eq_false (db : DB) (e a : Nat)
    (hpair : ∀ u ∈ db.tickets, ¬(u.eventId = e ∧ u.attendeeId = a)) :
    hasActivePair db e a = false := by
  unfold hasActivePair
  rw [List.any_eq_false]
  intro u hu
  simp only [Bool.and_eq_true, beq_iff_eq]
  intro hc
  exact hpair u hu ⟨hc.1.1, hc.1.2⟩

/-- The unique indexes accept an insert whose pair and generated identifiers
are all fresh. -/
lemma insertConflict_eq_false (db : DB) (t : Ticket)
    (hpair : ∀ u ∈ db.tickets, ¬(u.eventId = t.eventId ∧ u.attendeeId = t.attendeeId))
    (htn : ∀ u ∈ db.tickets, u.ticketNumber ≠ t.ticketNumber)
    (hqd : ∀ u ∈ db.tickets, u.qrCodeData ≠ t.qrCodeData)
    (hqu : ∀ u ∈ db.tickets, u.qrCodeUrl ≠ t.qrCodeUrl) :
    insertConflict db t = false := by
  unfold insertConflict
  rw [List.any_eq_false]
  intro u hu
  simp only [Bool.or_eq_true, Bool.and_eq_true, beq_iff_eq]
  intro hc
  rcases hc with ((hAB | hC) | hD) | hE
  · exact hpair u hu hAB
  · exact htn u hu hC
  · exact hqd u hu hD
  · exact hqu u hu hE

/-- After replacing every element carrying an id, a lookup by that id
returns the replacement whenever a carrier existed. -/
lemma find?_replace_self (l : List Ticket) (tid : Nat) (t1 : Ticket) (hid : t1.id = tid)
    (hex : ∃ t ∈ l, t.id = tid) :
    (l.map fun u => if u.id == tid then t1 else u).find? (fun u => u.id == tid) = some t1 := by
  induction l with
  | nil =>
    obtain ⟨t, ht, -⟩ := hex
    cases ht
  | cons a l ih =>
    by_cases hb : a.id = tid
    · rw [List.map_cons, if_pos (by simpa using hb)]
      exact List.find?_cons_of_pos _ (by simpa using hid)
    · rw [List.map_cons, if_neg (by simpa using hb),
        List.find?_cons_of_neg _ (by simpa using hb)]
      apply ih
      obtain ⟨t, ht, htid⟩ := hex
      rcases List.mem_cons.mp ht with rfl | ht2
      · exact absurd htid hb
      · exact ⟨t, ht2, htid⟩

/-- Replacing one ticket keeps every other-id ticket in the store. -/
lemma mem_replaceTicket_of_ne (db : DB) (tid : Nat) (t1 : Ticket) (u : Ticket)
    (hu : u ∈ db.tickets) (hne : u.id ≠ tid) : u ∈ (replaceTicket db tid t1).tickets := by
  have hmem : (if u.id == tid then t1 else u) ∈
      db.tickets.map (fun x => if x.id == tid then t1 else x) :=
    List.mem_map_of_mem _ hu
  rwa [if_neg (by simpa using hne)] at hmem

/-- No step of a booking request removes a stored pair ticket. -/
lemma pairIn_rstep (now : Int) (r : BookReq) (p : RPhase) (db : DB) (e a : Nat)
    (h : pairIn db e a) : pairIn (rstep now r p db).2 e a := by
  cases p with
  | preCheck =>
    simp only [rstep]
    cases hfe : findEvent db r.eventId with
    | none => exact h
    | some ev =>
      dsimp only
      split_ifs <;> exact h
  | preDup isFree =>
    simp only [rstep]
    split_ifs <;> exact h
  | preInsert =>
    simp only [rstep]
    split_ifs with hc
    · exact h
    · obtain ⟨u, hu, he, ha⟩ := h
      exact ⟨u, List.mem_append_left _ hu, he, ha⟩
  | preIncr => exact h
  | finished r0 => exact h

/-- The only transition into the past-insert region is a conflict-free
insert, and it appends the request's pair ticket. -/
lemma pastInsert_step (now : Int) (r : BookReq) (p : RPhase) (db : DB)
    (hnp : ¬ pastInsert p) (hp2 : pastInsert (rstep now r p db).1) :
    p = RPhase.preInsert
    ∧ insertConflict db (reqTicket now r) = false
    ∧ (rstep now r p db).2 = { db with tickets := db.tickets ++ [reqTicket now r] } := by
  cases p with
  | preCheck =>
    exfalso
    simp only [rstep] at hp2
    cases hfe : findEvent db r.eventId with
    | none =>
      rw [hfe] at hp2
      exact hp2
    | some ev =>
      rw [hfe] at hp2
      dsimp only at hp2
      revert hp2
      split_ifs <;> intro hp2 <;> exact hp2
  | preDup isFree =>
    exfalso
    simp only [rstep] at hp2
    revert hp2
    split_ifs <;> intro hp2 <;> exact hp2
  | preInsert =>
    simp only [rstep] at hp2 ⊢
    revert hp2
    split_ifs with hc <;> intro hp2
    · exact hp2.elim
    · exact ⟨by trivial, by simpa using hc, rfl⟩
  | preIncr => exact absurd trivial hnp
  | finished r0 =>
    exfalso
    exact hnp (by simp only [rstep] at hp2; exact hp2)

/-- Once past its insert, a request stays past it. -/
lemma pastInsert_mono (now : Int) (r : BookReq) (p : RPhase) (db : DB)
    (hp : pastInsert p) : pastInsert (rstep now r p db).1 := by
  cases p with
  | preCheck => exact hp.elim
  | preDup isFree => exact hp.elim
  | preInsert => exact hp.elim
  | preIncr => trivial
  | finished r0 => exact hp

/-- The unique pair index rejects an insert when a pair ticket is stored. -/
lemma insertConflict_of_pairIn (db : DB) (now : Int) (r : BookReq) (e a : Nat)
    (he : r.eventId = e) (ha : r.attendeeId = a) (h : pairIn db e a) :
    insertConflict db (reqTicket now r) = true := by
  obtain ⟨u, hu, hue, hua⟩ := h
  unfold insertConflict
  rw [List.any_eq_true]
  exact ⟨u, hu, by simp [reqTicket, he, ha, hue, hua]⟩

/-- One scheduler step preserves the same-pair invariant. -/
lemma samePairInv_step (now : Int) (r1 r2 : BookReq) (e a : Nat)
    (he1 : r1.eventId = e) (ha1 : r1.attendeeId = a)
    (he2 : r2.eventId = e) (ha2 : r2.attendeeId = a)
    (s : Sched2State) (h : SamePairInv e a s) (pick : Bool) :
    SamePairInv e a (sched2Step now r1 r2 s pick) := by
  obtain ⟨h1, h2, h12⟩ := h
  cases pick with
  | false =>
    show SamePairInv e a
      { s with phase1 := (rstep now r1 s.phase1 s.db).1, db := (rstep now r1 s.phase1 s.db).2 }
    by_cases hp1 : pastInsert s.phase1
    · exact ⟨fun _ => pairIn_rstep now r1 s.phase1 s.db e a (h1 hp1),
        fun hp2 => pairIn_rstep now r1 s.phase1 s.db e a (h2 hp2),
        fun hc => h12 ⟨hp1, hc.2⟩⟩
    · by_cases hp1n : pastInsert (rstep now r1 s.phase1 s.db).1
      · obtain ⟨hpi, hcf, hdb⟩ := pastInsert_step now r1 s.phase1 s.db hp1 hp1n
        have hno2 : ¬ pastInsert s.phase2 := by
          intro hp2
          have hct := insertConflict_of_pairIn s.db now r1 e a he1 ha1 (h2 hp2)
          rw [hcf] at hct
          exact Bool.false_ne_true hct
        refine ⟨fun _ => ?_, fun hp2 => absurd hp2 hno2, fun hc => absurd hc.2 hno2⟩
        rw [hdb]
        exact ⟨reqTicket now r1, List.mem_append_right _ (by simp), he1, ha1⟩
      · exact ⟨fun hp => absurd hp hp1n,
          fun hp2 => pairIn_rstep now r1 s.phase1 s.db e a (h2 hp2),
          fun hc => absurd hc.1 hp1n⟩
  | true =>
    show SamePairInv e a
      { s with phase2 := (rstep now r2 s.phase2 s.db).1, db := (rstep now r2 s.phase2 s.db).2 }
    by_cases hp2 : pastInsert s.phase2
    · exact ⟨fun hp1 => pairIn_rstep now r2 s.phase2 s.db e a (h1 hp1),
        fun _ => pairIn_rstep now r2 s.phase2 s.db e a (h2 hp2),
        fun hc => h12 ⟨hc.1, hp2⟩⟩
    · by_cases hp2n : pastInsert (rstep now r2 s.phase2 s.db).1
      · obtain ⟨hpi, hcf, hdb⟩ := pastInsert_step now r2 s.phase2 s.db hp2 hp2n
        have hno1 : ¬ pastInsert s.phase1 := by
          intro hp1
          have hct := insertConflict_of_pairIn s.db now r2 e a he2 ha2 (h1 hp1)
          rw [hcf] at hct
          exact Bool.false_ne_true hct
        refine ⟨fun hp1 => absurd hp1 hno1, fun _ => ?_, fun hc => absurd hc.1 hno1⟩
        rw [hdb]
        exact ⟨reqTicket now r2, List.mem_append_right _ (by simp), he2, ha2⟩
      · exact ⟨fun hp1 => pairIn_rstep now r2 s.phase2 s.db e a (h1 hp1),
          fun hp => absurd hp hp2n,
          fun hc => absurd hc.2 hp2n⟩

/-- The same-pair invariant holds after every schedule. -/
lemma samePairInv_run (now : Int) (r1 r2 : BookReq) (e a : Nat)
    (he1 : r1.eventId = e) (ha1 : r1.attendeeId = a)
    (he2 : r2.eventId = e) (ha2 : r2.attendeeId = a)
    (sched : List Bool) (db : DB) :
    SamePairInv e a (runSched2 now r1 r2 db sched) := by
  unfold runSched2
  suffices h : ∀ s, SamePairInv e a s → SamePairInv e a (sched.foldl (sched2Step now r1 r2) s) by
    exact h _ ⟨fun hp => hp.elim, fun hp => hp.elim, fun hc => hc.1.elim⟩
  induction sched with
  | nil => intro s hs; exact hs
  | cons b l ih =>
    intro s hs
    exact ih _ (samePairInv_step now r1 r2 e a he1 ha1 he2 ha2 s hs b)

/-!
Claim theorems.
-/

/-- C1: for every event and after every sequence of issue (`bookTicket`) and
cancel (`cancelTicket`) operations starting from a consistent state, the
event's `ticketsSold` counter satisfies `0 ≤ ticketsSold ≤ capacity`: issue
increments it only after verifying `ticketsSold < capacity`, and cancel
decrements it only for a ticket that was active. -/
theorem ticketsSold_bounds_invariant (db : DB) (h : ConsistentDB db) (ops : List LedgerOp) :
    ∀ ev ∈ (runOps db ops).events, 0 ≤ ev.ticketsSold ∧ ev.ticketsSold ≤ ev.capacity := by
  intro ev hev
  obtain ⟨-, -, hsold⟩ := consistent_runOps db h ops
  obtain ⟨h1, h2⟩ := hsold ev hev
  refine ⟨?_, h2⟩
  rw [h1]
  omega

/-- Witness for C1 at a concrete state and operation sequence: after two
bookings, one cancellation and one re-booking the stored event's counter is
within bounds. -/
theorem ticketsSold_bounds_invariant_witness :
    0 ≤ ({ evFreeF with ticketsSold := 2 } : Event).ticketsSold
    ∧ ({ evFreeF with ticketsSold := 2 } : Event).ticketsSold
        ≤ ({ evFreeF with ticketsSold := 2 } : Event).capacity :=
  ticketsSold_bounds_invariant dbEmpty (by unfold ConsistentDB soldCount; decide) wOps
    { evFreeF with ticketsSold := 2 } (by decide)

/-- C2 (amended): `bookTicket` fails with `notFound` iff the event is
missing; given the event, with `eventNotBookable` iff its status is not
published or it has started; given a bookable event, with `capacityExceeded`
iff `ticketsSold` has reached capacity; given spare capacity, with
`duplicateBooking` iff a non-cancelled ticket for the pair exists; and no
failure changes the state.  (The unamended claim is refuted by
`bookTicket_fails_despite_preconditions`: the save can still be rejected by
the unique index when only a cancelled pair ticket exists, so satisfying all
listed preconditions does not guarantee success.) -/
theorem bookTicket_error_spec (db : DB) (now : Int) (e a : Nat) (tn qd qu ai : String) :
    (((bookTicket db now e a tn qd qu ai).1 = BookResult.err BookError.notFound)
        ↔ findEvent db e = none)
    ∧ (∀ ev, findEvent db e = some ev →
        (((bookTicket db now e a tn qd qu ai).1 = BookResult.err BookError.eventNotBookable)
          ↔ (ev.status ≠ EStatus.published ∨ ev.startDateTime ≤ now)))
    ∧ (∀ ev, findEvent db e = some ev → ev.status = EStatus.published →
        now < ev.startDateTime →
        (((bookTicket db now e a tn qd qu ai).1 = BookResult.err BookError.capacityExceeded)
          ↔ ev.capacity ≤ ev.ticketsSold))
    ∧ (∀ ev, findEvent db e = some ev → ev.status = EStatus.published →
        now < ev.startDateTime → ev.ticketsSold < ev.capacity →
        (((bookTicket db now e a tn qd qu ai).1 = BookResult.err BookError.duplicateBooking)
          ↔ hasActivePair db e a = true))
    ∧ (∀ k, (bookTicket db now e a tn qd qu ai).1 = BookResult.err k →
        (bookTicket db now e a tn qd qu ai).2 = db) := by
  cases hfind : findEvent db e with
  | none =>
    refine ⟨by simp [bookTicket, hfind], ?_, ?_, ?_, ?_⟩ <;>
      simp [bookTicket, hfind]
  | some ev =>
    refine ⟨?_, ?_, ?_, ?_, ?_⟩
    · simp only [bookTicket, hfind]
      split_ifs <;> simp
    · intro ev2 hev2
      obtain rfl : ev = ev2 := by injection hev2
      simp only [bookTicket, hfind]
      split_ifs <;> simp_all
    · intro ev2 hev2 hpub hstart
      obtain rfl : ev = ev2 := by injection hev2
      simp only [bookTicket, hfind]
      split_ifs <;> first | (exfalso; omega) | simp_all
    · intro ev2 hev2 hpub hstart hsold
      obtain rfl : ev = ev2 := by injection hev2
      simp only [bookTicket, hfind]
      split_ifs <;> first | (exfalso; omega) | simp_all
    · intro k
      simp only [bookTicket, hfind]
      split_ifs <;> simp

/-- Counterexample for C2 as stated: in `dbCancelled` every precondition
listed by the claim holds for a booking of event 1 by attendee 2 — the event
exists, is published, has not started, has spare capacity, and no
non-cancelled pair ticket exists — yet the booking fails, because the unique
`(eventId, attendeeId)` index also covers the cancelled ticket. -/
theorem bookTicket_fails_despite_preconditions :
    (bookTicket dbCancelled 0 1 2 "TX" "QX" "UX" "").1 = BookResult.err BookError.storageError
    ∧ (bookTicket dbCancelled 0 1 2 "TX" "QX" "UX" "").2 = dbCancelled
    ∧ findEvent dbCancelled 1 = some evFreeF
    ∧ evFreeF.status = EStatus.published
    ∧ (0 : Int) < evFreeF.startDateTime
    ∧ evFreeF.ticketsSold < evFreeF.capacity
    ∧ hasActivePair dbCancelled 1 2 = false := by
  decide

/-- Witness for C2 at a concrete state: an active duplicate ticket makes the
booking fail with `duplicateBooking`. -/
theorem bookTicket_error_spec_witness :
    (bookTicket dbActive 0 1 2 "TX" "QX" "UX" "").1 = BookResult.err BookError.duplicateBooking :=
  ((bookTicket_error_spec dbActive 0 1 2 "TX" "QX" "UX" "").2.2.2.1 evFreeF (by decide)
    (by decide) (by decide) (by decide)).mpr (by decide)

/-- C3 (amended): for every free event satisfying the booking
preconditions and whose attendee holds no ticket of any status for the
event (not merely no non-cancelled one) and whose freshly generated
identifiers do not collide with stored tickets, `bookTicket` succeeds
immediately and creates exactly one ticket with status `active`,
paymentStatus `completed`, `pricePaid = 0` and the freshly generated
ticket number and verification token, and increments the event's
`ticketsSold` by exactly 1; for a paid event no ticket is issued before
payment confirmation.  (The unamended claim is refuted by
`bookTicket_free_preconditions_not_sufficient`: with only a cancelled pair
ticket stored every stated precondition holds, yet the insert is rejected
by the unique index and no ticket is issued.) -/
theorem bookTicket_free_issues_ticket (db : DB) (now : Int) (e a : Nat)
    (tn qd qu ai : String) (ev : Event)
    (hfind : findEvent db e = some ev)
    (hpub : ev.status = EStatus.published)
    (hstart : now < ev.startDateTime)
    (hcap : ev.ticketsSold < ev.capacity)
    (hpair : ∀ u ∈ db.tickets, ¬(u.eventId = e ∧ u.attendeeId = a))
    (htn : ∀ u ∈ db.tickets, u.ticketNumber ≠ tn)
    (hqd : ∀ u ∈ db.tickets, u.qrCodeData ≠ qd)
    (hqu : ∀ u ∈ db.tickets, u.qrCodeUrl ≠ qu) :
    (ev.isFree = true → ∃ t,
        (bookTicket db now e a tn qd qu ai).1 = BookResult.booked t
        ∧ t.status = TStatus.active
        ∧ t.paymentStatus = PayStatus.completed
        ∧ t.pricePaid = 0
        ∧ t.ticketNumber = tn
        ∧ t.qrCodeData = qd
        ∧ (bookTicket db now e a tn qd qu ai).2.tickets = db.tickets ++ [t]
        ∧ findEvent (bookTicket db now e a tn qd qu ai).2 e
            = some { ev with ticketsSold := ev.ticketsSold + 1 }
        ∧ (∀ e2, e2 ≠ e →
            findEvent (bookTicket db now e a tn qd qu ai).2 e2 = findEvent db e2))
    ∧ (ev.isFree = false →
        bookTicket db now e a tn qd qu ai = (BookResult.requiresPayment, db)) := by
  have hdup : hasActivePair db e a = false := hasActivePair_eq_false db e a hpair
  have hconf : insertConflict db (mkFreeTicket db now e a tn qd qu ai) = false :=
    insertConflict_eq_false db _ hpair htn hqd hqu
  constructor
  · intro hfree
    have hbook : bookTicket db now e a tn qd qu ai
        = (BookResult.booked (mkFreeTicket db now e a tn qd qu ai),
            adjustTicketsSold
              { db with tickets := db.tickets ++ [mkFreeTicket db now e a tn qd qu ai] } e 1) := by
      simp only [bookTicket, hfind]
      rw [if_neg (by simp [hpub]), if_neg (by omega), if_neg (by omega),
        if_neg (by simp [hdup]), if_pos hfree, if_neg (by simp [hconf])]
    refine ⟨mkFreeTicket db now e a tn qd qu ai, ?_, rfl, rfl, rfl, rfl, rfl, ?_, ?_, ?_⟩
    · rw [hbook]
    · rw [hbook]
      rfl
    · rw [hbook]
      exact findEvent_adjustTicketsSold_self 1 hfind
    · intro e2 hne
      rw [hbook]
      exact findEvent_adjustTicketsSold_other _ e 1 e2 hne
  · intro hfree
    have hbook : bookTicket db now e a tn qd qu ai = (BookResult.requiresPayment, db) := by
      simp only [bookTicket, hfind]
      rw [if_neg (by simp [hpub]), if_neg (by omega), if_neg (by omega),
        if_neg (by simp [hdup]), if_neg (by simp [hfree])]
    exact hbook

/-- Witness for C3 at a concrete state: booking the free event in the empty
store issues the expected ticket. -/
theorem bookTicket_free_issues_ticket_witness :
    (bookTicket dbEmpty 0 1 2 "T1" "Q1" "U1" "").2.tickets.length
        = dbEmpty.tickets.length + 1
    ∧ findEvent (bookTicket dbEmpty 0 1 2 "T1" "Q1" "U1" "").2 1
        = some { evFreeF with ticketsSold := evFreeF.ticketsSold + 1 } := by
  obtain ⟨t, h1, h2, h3, h4, h5, h6, h7, h8, h9⟩ :=
    (bookTicket_free_issues_ticket dbEmpty 0 1 2 "T1" "Q1" "U1" "" evFreeF (by decide) (by decide)
      (by decide) (by decide) (by decide) (by decide) (by decide) (by decide)).1 (by decide)
  refine ⟨?_, h8⟩
  rw [h7]
  simp

/-- Counterexample for C3 as stated: event 1 is free, published, not
started, has spare capacity, attendee 2 holds no non-cancelled ticket for
it, and the generated identifiers are fresh (the only stored ticket is the
cancelled "T0"/"Q0" one) — every precondition of the claim holds — yet the
booking fails with a storage error and no ticket is created. -/
theorem bookTicket_free_preconditions_not_sufficient :
    findEvent dbCancelled 1 = some evFreeF
    ∧ evFreeF.isFree = true
    ∧ evFreeF.status = EStatus.published
    ∧ (7 : Int) < evFreeF.startDateTime
    ∧ evFreeF.ticketsSold < evFreeF.capacity
    ∧ hasActivePair dbCancelled 1 2 = false
    ∧ dbCancelled.tickets.map Ticket.ticketNumber = ["T0"]
    ∧ dbCancelled.tickets.map Ticket.qrCodeData = ["Q0"]
    ∧ dbCancelled.tickets.map Ticket.qrCodeUrl = ["U0"]
    ∧ dbCancelled.tickets.map Ticket.status = [TStatus.cancelled]
    ∧ (bookTicket dbCancelled 7 1 2 "TY" "QY" "UY" "").1 = BookResult.err BookError.storageError
    ∧ (bookTicket dbCancelled 7 1 2 "TY" "QY" "UY" "").2 = dbCancelled := by
  decide

/-- C9: the ticket store's unique index on `(eventId, attendeeId)` covers all
tickets regardless of status, while the duplicate check of `bookTicket` only
considers non-cancelled tickets; hence an attendee holding a cancelled ticket
for an event passes the duplicate check but the insert is rejected, so
re-booking after cancellation can never succeed. -/
theorem rebooking_after_cancellation_always_fails (db : DB) (now : Int) (e a : Nat)
    (tn qd qu ai : String) (ev : Event) (t0 : Ticket)
    (hfind : findEvent db e = some ev)
    (hpub : ev.status = EStatus.published)
    (hstart : now < ev.startDateTime)
    (hcap : ev.ticketsSold < ev.capacity)
    (hfree : ev.isFree = true)
    (ht0 : t0 ∈ db.tickets)
    (ht0e : t0.eventId = e)
    (ht0a : t0.attendeeId = a)
    (ht0s : t0.status = TStatus.cancelled)
    (hnoactive : hasActivePair db e a = false) :
    bookTicket db now e a tn qd qu ai = (BookResult.err BookError.storageError, db) := by
  have hconf : insertConflict db (mkFreeTicket db now e a tn qd qu ai) = true := by
    unfold insertConflict
    rw [List.any_eq_true]
    refine ⟨t0, ht0, ?_⟩
    simp [mkFreeTicket, ht0e, ht0a]
  simp only [bookTicket, hfind]
  rw [if_neg (by simp [hpub]), if_neg (by omega), if_neg (by omega),
    if_neg (by simp [hnoactive]), if_pos hfree, if_pos hconf]

/-- Witness for C9 at a concrete state: attendee 2 cannot re-book event 1
after holding a cancelled ticket for it. -/
theorem rebooking_after_cancellation_always_fails_witness :
    bookTicket dbCancelled 5 1 2 "TX" "QX" "UX" ""
      = (BookResult.err BookError.storageError, dbCancelled) :=
  rebooking_after_cancellation_always_fails dbCancelled 5 1 2 "TX" "QX" "UX" "" evFreeF tCancelled
    (by decide) (by decide) (by decide) (by decide) (by decide) (by decide) (by decide)
    (by decide) (by decide) (by decide)

/-- C4 (amended): `cancelTicket` succeeds exactly when the ticket exists,
belongs to the requesting attendee, has status `active` (all three captured
by the `findCancellable` lookup), the ticket's event exists, and
`event.start - now` is at least 24 hours (the exact-24h boundary succeeds,
anything less is rejected); on success the returned refund equals
`pricePaid`, the stored ticket's status becomes `cancelled`, and the
event's `ticketsSold` is decremented by exactly 1.  The cancellation
record the controller assigns, however, is never persisted — `ticketSchema`
has no `cancellation` path, so strict-mode save drops it and the stored
ticket's cancellation field is unchanged.  (The unamended claim is refuted
by `cancellation_record_not_persisted`.) -/
theorem cancelTicket_spec (db : DB) (now : Int) (tid a : Nat) (reason : Option String) :
    (findCancellable db tid a = none →
        cancelTicket db now tid a reason
          = (CancelResult.err CancelError.notFoundOrNotCancellable, db))
    ∧ (∀ t ev, findCancellable db tid a = some t → findEvent db t.eventId = some ev →
        (ev.startDateTime - now < 24 * msPerHour →
            cancelTicket db now tid a reason = (CancelResult.err CancelError.insideWindow, db))
        ∧ (24 * msPerHour ≤ ev.startDateTime - now →
            (cancelTicket db now tid a reason).1 = CancelResult.ok t.pricePaid
            ∧ (∃ t1, findTicketById (cancelTicket db now tid a reason).2 tid = some t1
                ∧ t1.status = TStatus.cancelled
                ∧ t1.cancellation = t.cancellation
                ∧ t1.pricePaid = t.pricePaid)
            ∧ findEvent (cancelTicket db now tid a reason).2 t.eventId
                = some { ev with ticketsSold := ev.ticketsSold - 1 }
            ∧ (∀ e2, e2 ≠ t.eventId →
                findEvent (cancelTicket db now tid a reason).2 e2 = findEvent db e2))) := by
  constructor
  · intro hnone
    simp only [cancelTicket, hnone]
  · intro t ev hfc hfe
    have htp := List.find?_some hfc
    simp only [Bool.and_eq_true, beq_iff_eq] at htp
    have htm := List.mem_of_find?_eq_some hfc
    constructor
    · intro hwin
      simp only [cancelTicket, hfc, hfe]
      rw [if_pos hwin]
    · intro hwin
      have hcanc : cancelTicket db now tid a reason
          = (CancelResult.ok t.pricePaid,
              adjustTicketsSold (replaceTicket db t.id (cancelledTicket t))
                t.eventId (-1)) := by
        simp only [cancelTicket, hfc, hfe]
        rw [if_neg (by omega)]
      refine ⟨?_, ⟨cancelledTicket t, ?_, rfl, rfl, rfl⟩, ?_, ?_⟩
      · rw [hcanc]
      · rw [hcanc]
        show findTicketById (replaceTicket db t.id (cancelledTicket t)) tid = _
        rw [← htp.1.1]
        exact find?_replace_self db.tickets t.id _ rfl ⟨t, htm, rfl⟩
      · rw [hcanc]
        have hadj := findEvent_adjustTicketsSold_self (-1) hfe
        rw [show ev.ticketsSold - 1 = ev.ticketsSold + (-1) by ring]
        exact hadj
      · intro e2 hne
        rw [hcanc]
        exact findEvent_adjustTicketsSold_other _ _ (-1) e2 hne

/-- Witness for C4 at concrete inputs: cancelling exactly 24 hours before
the start succeeds with the ticket's price as refund, while 23 hours and 59
minutes before the start is rejected. -/
theorem cancelTicket_spec_witness :
    (cancelTicket dbScan 113600000 2 3 none).1 = CancelResult.ok tUnscanned.pricePaid
    ∧ cancelTicket dbScan 113660000 2 3 none
        = (CancelResult.err CancelError.insideWindow, dbScan) := by
  constructor
  · exact (((cancelTicket_spec dbScan 113600000 2 3 none).2 tUnscanned
      { evFreeF with ticketsSold := 2 } (by decide) (by decide)).2 (by decide)).1
  · exact ((cancelTicket_spec dbScan 113660000 2 3 none).2 tUnscanned
      { evFreeF with ticketsSold := 2 } (by decide) (by decide)).1 (by decide)

/-- Counterexample for C4 as stated: this cancellation succeeds — the
refund is returned and the stored ticket's status becomes `cancelled` —
yet the stored ticket carries no cancellation record at all (in particular
none whose `refundAmount` equals `pricePaid`): the `cancellation`
assignment is dropped by strict-mode save because `ticketSchema` declares
no such path. -/
theorem cancellation_record_not_persisted :
    (cancelTicket dbScan 113600000 2 3 none).1 = CancelResult.ok tUnscanned.pricePaid
    ∧ findTicketById (cancelTicket dbScan 113600000 2 3 none).2 2
        = some { tUnscanned with status := TStatus.cancelled }
    ∧ ({ tUnscanned with status := TStatus.cancelled } : Ticket).cancellation = none := by
  decide

/-- C5: an entry scan of an active ticket by an assigned staff member inside
the event window never fails.  A first scan sets `scanCount = 1` and reports
`isFirstScan = true`; every re-scan of an already-scanned ticket increments
`scanCount` by exactly 1 (both in the response and in the stored ticket, so
the counter strictly increases across successive scans) and reports
`isFirstScan = false` whenever the previous count was at least 1. -/
theorem scanTicket_entry_spec (db : DB) (now : Int) (k1 k2 : Option String)
    (hint : Option Nat) (staffId : Nat) (t : Ticket) (ev : Event)
    (hkey : ¬(k1 = none ∧ k2 = none))
    (hfind : db.tickets.find? (ticketQuery k1 k2 hint) = some t)
    (hev : findEvent db t.eventId = some ev)
    (hstaff : ev.assignedStaff.contains staffId = true)
    (hactive : t.status = TStatus.active)
    (hwin1 : ev.startDateTime ≤ now)
    (hwin2 : now ≤ ev.endDateTime) :
    (t.verification.isScanned = true →
        scanTicket db now k1 k2 hint staffId ScanAction.entry
          = (ScanResult.ok
              { ticketNumber := t.ticketNumber
                verification := { t.verification with scanCount := t.verification.scanCount + 1 }
                scanCount := t.verification.scanCount + 1
                isFirstScan := t.verification.scanCount + 1 == 1 },
             replaceTicket db t.id
               { t with verification :=
                   { t.verification with scanCount := t.verification.scanCount + 1 } })
        ∧ (1 ≤ t.verification.scanCount → (t.verification.scanCount + 1 == 1) = false))
    ∧ (t.verification.isScanned = false →
        scanTicket db now k1 k2 hint staffId ScanAction.entry
          = (ScanResult.ok
              { ticketNumber := t.ticketNumber
                verification :=
                  { t.verification with
                    isScanned := true
                    scannedAt := some now
                    scannedBy := some staffId
                    entryTime := some now
                    scanCount := 1 }
                scanCount := 1
                isFirstScan := true },
             replaceTicket db t.id
               { t with verification :=
                   { t.verification with
                     isScanned := true
                     scannedAt := some now
                     scannedBy := some staffId
                     entryTime := some now
                     scanCount := 1 } })) := by
  constructor
  · intro hsc
    constructor
    · simp only [scanTicket, hfind, hev]
      rw [if_neg hkey, if_neg (not_not_intro hstaff), if_neg (by simp [hactive]),
        if_neg (fun hc => absurd hc.2 (by omega : ¬ now < ev.startDateTime)),
        if_neg (show ¬(ev.endDateTime < now) by omega), if_pos hsc]
    · intro hge
      simp only [beq_eq_false_iff_ne, ne_eq]
      omega
  · intro hsc
    simp only [scanTicket, hfind, hev]
    rw [if_neg hkey, if_neg (not_not_intro hstaff), if_neg (by simp [hactive]),
      if_neg (fun hc => absurd hc.2 (by omega : ¬ now < ev.startDateTime)),
      if_neg (show ¬(ev.endDateTime < now) by omega), if_neg (by simp [hsc])]
    rfl

/-- Witness for C5 at a concrete state: a second entry scan (by the other
assigned staff member) of the already-scanned ticket succeeds with
`scanCount = 2`. -/
theorem scanTicket_entry_spec_witness :
    scanTicket dbScan 250000000 (some "T1") none none 6 ScanAction.entry
      = (ScanResult.ok
          { ticketNumber := tScanned.ticketNumber
            verification :=
              { tScanned.verification with scanCount := tScanned.verification.scanCount + 1 }
            scanCount := tScanned.verification.scanCount + 1
            isFirstScan := tScanned.verification.scanCount + 1 == 1 },
         replaceTicket dbScan tScanned.id
           { tScanned with verification :=
               { tScanned.verification with scanCount := tScanned.verification.scanCount + 1 } }) :=
  ((scanTicket_entry_spec dbScan 250000000 (some "T1") none none 6 tScanned
      { evFreeF with ticketsSold := 2 } (by simp) (by decide) (by decide) (by decide)
      (by decide) (by decide) (by decide)).1 (by decide)).1

/-- C10: an entry re-scan of an already-scanned ticket modifies only
`verification.scanCount`: the stored ticket keeps every other field —
`isScanned`, `scannedAt`, `scannedBy` (the first scanner, even when the
re-scan is performed by different staff), `entryTime`, `exitTime`, `status`
and all remaining ticket fields — and every other ticket is untouched. -/
theorem scanTicket_rescan_frame (db : DB) (now : Int) (k1 k2 : Option String)
    (hint : Option Nat) (staffId : Nat) (t : Ticket) (ev : Event)
    (hkey : ¬(k1 = none ∧ k2 = none))
    (hfind : db.tickets.find? (ticketQuery k1 k2 hint) = some t)
    (hev : findEvent db t.eventId = some ev)
    (hstaff : ev.assignedStaff.contains staffId = true)
    (hactive : t.status = TStatus.active)
    (hwin1 : ev.startDateTime ≤ now)
    (hwin2 : now ≤ ev.endDateTime)
    (hscanned : t.verification.isScanned = true) :
    (scanTicket db now k1 k2 hint staffId ScanAction.entry).2
        = replaceTicket db t.id
            { t with verification :=
                { t.verification with scanCount := t.verification.scanCount + 1 } }
    ∧ (∃ t1, findTicketById (scanTicket db now k1 k2 hint staffId ScanAction.entry).2 t.id
          = some t1
        ∧ t1.verification.scanCount = t.verification.scanCount + 1
        ∧ t1.verification.isScanned = t.verification.isScanned
        ∧ t1.verification.scannedAt = t.verification.scannedAt
        ∧ t1.verification.scannedBy = t.verification.scannedBy
        ∧ t1.verification.entryTime = t.verification.entryTime
        ∧ t1.verification.exitTime = t.verification.exitTime
        ∧ t1.status = t.status
        ∧ t1.eventId = t.eventId
        ∧ t1.attendeeId = t.attendeeId
        ∧ t1.ticketNumber = t.ticketNumber
        ∧ t1.qrCodeUrl = t.qrCodeUrl
        ∧ t1.qrCodeData = t.qrCodeData
        ∧ t1.paymentId = t.paymentId
        ∧ t1.pricePaid = t.pricePaid
        ∧ t1.paymentStatus = t.paymentStatus
        ∧ t1.checkIn = t.checkIn
        ∧ t1.bookingDate = t.bookingDate
        ∧ t1.attendeeInfo = t.attendeeInfo
        ∧ t1.cancellation = t.cancellation
        ∧ t1.staffNotes = t.staffNotes)
    ∧ (∀ u ∈ db.tickets, u.id ≠ t.id →
        u ∈ (scanTicket db now k1 k2 hint staffId ScanAction.entry).2.tickets) := by
  have hstep : (scanTicket db now k1 k2 hint staffId ScanAction.entry).2
      = replaceTicket db t.id
          { t with verification :=
              { t.verification with scanCount := t.verification.scanCount + 1 } } := by
    simp only [scanTicket, hfind, hev]
    rw [if_neg hkey, if_neg (not_not_intro hstaff), if_neg (by simp [hactive]),
      if_neg (fun hc => absurd hc.2 (by omega : ¬ now < ev.startDateTime)),
      if_neg (show ¬(ev.endDateTime < now) by omega), if_pos hscanned]
  have htm : t ∈ db.tickets := List.mem_of_find?_eq_some hfind
  refine ⟨hstep, ?_, ?_⟩
  · refine ⟨{ t with verification :=
        { t.verification with scanCount := t.verification.scanCount + 1 } },
      ?_, rfl, rfl, rfl, rfl, rfl, rfl, rfl, rfl, rfl, rfl, rfl, rfl, rfl, rfl, rfl,
      rfl, rfl, rfl, rfl, rfl⟩
    rw [hstep]
    exact find?_replace_self db.tickets t.id _ rfl ⟨t, htm, rfl⟩
  · intro u hu hne
    rw [hstep]
    exact mem_replaceTicket_of_ne db t.id _ u hu hne

/-- Witness for C10 at a concrete state: staff 6 re-scans the ticket first
scanned by staff 5; only the stored scan counter moves. -/
theorem scanTicket_rescan_frame_witness :
    (scanTicket dbScan 250000000 (some "T1") none none 6 ScanAction.entry).2
        = replaceTicket dbScan tScanned.id
            { tScanned with verification :=
                { tScanned.verification with
                  scanCount := tScanned.verification.scanCount + 1 } } :=
  (scanTicket_rescan_frame dbScan 250000000 (some "T1") none none 6 tScanned
    { evFreeF with ticketsSold := 2 } (by simp) (by decide) (by decide) (by decide)
    (by decide) (by decide) (by decide) (by decide)).1

/-- C6 (amended): when a scan request supplies both a `ticketNumber` and a
`verificationToken` (`qrCodeData`), the lookup is resolved by `ticketNumber`
alone and the supplied `qrCodeData` is ignored entirely — the outcome is the
same as if `qrCodeData` had not been sent, whichever ticket it designates.
(The unamended claim is refuted by `scanTicket_both_keys_resolved_silently`:
no inconsistent-state error exists in the code.) -/
theorem scanTicket_qrCodeData_ignored (db : DB) (now : Int) (tn qd : String)
    (hint : Option Nat) (staffId : Nat) (action : ScanAction) :
    scanTicket db now (some tn) (some qd) hint staffId action
      = scanTicket db now (some tn) none hint staffId action := by
  unfold scanTicket
  rw [if_neg (by simp), if_neg (by simp)]
  rfl

/-- Counterexample for C6 as stated: in `dbScan` the supplied `ticketNumber`
belongs to one ticket and the supplied `qrCodeData` to a different one, yet
the scan does not fail with any error — it silently succeeds against the
ticket named by `ticketNumber`. -/
theorem scanTicket_both_keys_resolved_silently :
    tScanned.ticketNumber = "T1"
    ∧ tUnscanned.qrCodeData = "Q2"
    ∧ tScanned ≠ tUnscanned
    ∧ (scanTicket dbScan 250000000 (some "T1") (some "Q2") none 5 ScanAction.entry).1
        = ScanResult.ok
            { ticketNumber := "T1"
              verification :=
                { isScanned := true
                  scannedAt := some 210000000
                  scannedBy := some 5
                  entryTime := some 210000000
                  exitTime := none
                  scanCount := 2 }
              scanCount := 2
              isFirstScan := false } := by
  decide

/-- C7 (amended): for an assigned staff member `getEventAttendance`
aggregates exactly the event's tickets with status `active`:
`total` counts them, `scanned` counts those with `verification.isScanned`,
`unscanned + scanned = total`, and the reported rate is
`(scanned / total) * 100` — a percentage, not the fraction `scanned / total`
stated by the claim — rounded to two decimals (stored here in hundredths),
`0` when no active ticket exists, and never above `100.00`.
(The unamended claim is refuted by `attendanceRate_is_percentage`.) -/
theorem getEventAttendance_spec (db : DB) (e s : Nat) (ev : Event)
    (hev : findEvent db e = some ev)
    (hstaff : ev.assignedStaff.contains s = true) :
    ∃ st, getEventAttendance db e s = AttendanceResult.ok st
      ∧ st.totalTickets
          = db.tickets.countP (fun t => t.eventId == e && t.status == TStatus.active)
      ∧ st.scannedTickets
          = db.tickets.countP
              (fun t => t.verification.isScanned && (t.eventId == e && t.status == TStatus.active))
      ∧ st.scannedTickets ≤ st.totalTickets
      ∧ st.unscannedTickets + st.scannedTickets = st.totalTickets
      ∧ (st.totalTickets = 0 → st.attendanceRateCenti = 0)
      ∧ (0 < st.totalTickets →
          st.attendanceRateCenti = toFixed2Centi st.scannedTickets st.totalTickets)
      ∧ st.attendanceRateCenti ≤ 10000 := by
  have heq : getEventAttendance db e s
      = AttendanceResult.ok
          { totalTickets :=
              (db.tickets.filter fun t => t.eventId == e && t.status == TStatus.active).length
            scannedTickets :=
              ((db.tickets.filter fun t => t.eventId == e && t.status == TStatus.active).filter
                fun t => t.verification.isScanned).length
            unscannedTickets :=
              (db.tickets.filter fun t => t.eventId == e && t.status == TStatus.active).length
                - ((db.tickets.filter fun t => t.eventId == e && t.status == TStatus.active).filter
                    fun t => t.verification.isScanned).length
            attendanceRateCenti :=
              if 0 < (db.tickets.filter fun t =>
                  t.eventId == e && t.status == TStatus.active).length
              then toFixed2Centi
                ((db.tickets.filter fun t => t.eventId == e && t.status == TStatus.active).filter
                  fun t => t.verification.isScanned).length
                (db.tickets.filter fun t => t.eventId == e && t.status == TStatus.active).length
              else 0 } := by
    simp only [getEventAttendance, hev]
    rw [if_neg (not_not_intro hstaff)]
  have hsc_le : ((db.tickets.filter fun t => t.eventId == e && t.status == TStatus.active).filter
        fun t => t.verification.isScanned).length
      ≤ (db.tickets.filter fun t => t.eventId == e && t.status == TStatus.active).length :=
    List.length_filter_le _ _
  have hbound : ∀ sc tot : Nat, sc ≤ tot → 0 < tot → toFixed2Centi sc tot ≤ 10000 := by
    intro sc tot hle hpos
    have hlt : (20000 * sc + tot) / (2 * tot) < 10001 := by
      rw [Nat.div_lt_iff_lt_mul (by omega)]
      omega
    unfold toFixed2Centi
    omega
  refine ⟨_, heq, ?_, ?_, hsc_le, ?_, ?_, ?_, ?_⟩
  · show (db.tickets.filter fun t => t.eventId == e && t.status == TStatus.active).length = _
    rw [List.countP_eq_length_filter]
  · show ((db.tickets.filter fun t => t.eventId == e && t.status == TStatus.active).filter
        fun t => t.verification.isScanned).length = _
    rw [List.filter_filter, List.countP_eq_length_filter]
  · dsimp only
    omega
  · intro h0
    dsimp only at h0
    show (if 0 < (db.tickets.filter fun t =>
        t.eventId == e && t.status == TStatus.active).length then _ else 0) = 0
    rw [if_neg (by omega)]
  · intro hpos
    dsimp only at hpos
    show (if 0 < (db.tickets.filter fun t =>
        t.eventId == e && t.status == TStatus.active).length then _ else 0) = _
    rw [if_pos hpos]
  · by_cases hpos : 0 < (db.tickets.filter fun t =>
        t.eventId == e && t.status == TStatus.active).length
    · show (if 0 < (db.tickets.filter fun t =>
          t.eventId == e && t.status == TStatus.active).length then _ else 0) ≤ 10000
      rw [if_pos hpos]
      exact hbound _ _ hsc_le hpos
    · show (if 0 < (db.tickets.filter fun t =>
          t.eventId == e && t.status == TStatus.active).length then _ else 0) ≤ 10000
      rw [if_neg hpos]
      omega

/-- Counterexample for C7 as stated: with 2 active tickets of which 1 is
scanned, the code reports a rate of `50.00` (5000 hundredths, a percentage),
not `scanned / total = 0.50` (50 hundredths) as the claim's formula states. -/
theorem attendanceRate_is_percentage :
    getEventAttendance dbScan 1 5
      = AttendanceResult.ok
          { totalTickets := 2
            scannedTickets := 1
            unscannedTickets := 1
            attendanceRateCenti := 5000 }
    ∧ (5000 : Nat) ≠ 50 := by
  decide

/-- Witness for C7 at a concrete state: 2 active tickets, 1 scanned, rate
`toFixed2Centi 1 2` (that is, 50.00 percent). -/
theorem getEventAttendance_spec_witness :
    getEventAttendance dbScan 1 5
      = AttendanceResult.ok
          { totalTickets := 2
            scannedTickets := 1
            unscannedTickets := 1
            attendanceRateCenti := toFixed2Centi 1 2 } := by
  obtain ⟨st, heq, h1, h2, h3, h4, h5, h6, h7⟩ :=
    getEventAttendance_spec dbScan 1 5 { evFreeF with ticketsSold := 2 } (by decide) (by decide)
  decide

/-- C8 (amended): two interleaved `bookTicket` executions for the same
`(eventId, attendeeId)` can never both succeed, whatever the schedule: the
storage-level unique index on the pair makes the later insert fail (as a
generic storage error, not `DuplicateBooking`).  For distinct attendees no
such protection exists: the capacity check and the counter increment are not
one serializable unit, and `concurrent_capacity_race_both_succeed` exhibits
a schedule in which two bookings against a capacity-1 event both succeed,
refuting the claim as stated. -/
theorem concurrent_same_pair_not_both_succeed (now : Int) (r1 r2 : BookReq) (e a : Nat)
    (he1 : r1.eventId = e) (ha1 : r1.attendeeId = a)
    (he2 : r2.eventId = e) (ha2 : r2.attendeeId = a)
    (db : DB) (sched : List Bool) :
    ¬((runSched2 now r1 r2 db sched).phase1 = RPhase.finished ROutcome.success
      ∧ (runSched2 now r1 r2 db sched).phase2 = RPhase.finished ROutcome.success) := by
  intro hc
  obtain ⟨-, -, h12⟩ := samePairInv_run now r1 r2 e a he1 ha1 he2 ha2 sched db
  apply h12
  rw [hc.1, hc.2]
  exact ⟨trivial, trivial⟩

/-- Witness for C8 at a concrete state: two interleaved bookings of the same
pair do not both succeed. -/
theorem concurrent_same_pair_not_both_succeed_witness :
    ((runSched2 0 rqA rqADup dbEmpty raceSched).phase1 = RPhase.finished ROutcome.success
      ∧ (runSched2 0 rqA rqADup dbEmpty raceSched).phase2 = RPhase.finished ROutcome.success)
      = False :=
  eq_false (concurrent_same_pair_not_both_succeed 0 rqA rqADup 1 2 rfl rfl rfl rfl dbEmpty raceSched)

/-- Counterexample for C8 as stated: against the capacity-1 event with 0
sold, the alternating schedule lets both concurrent bookings by distinct
attendees succeed, and the final `ticketsSold` is 2, above the capacity of
1 — the code provides no serializability for the capacity check plus
increment. -/
theorem concurrent_capacity_race_both_succeed :
    (runSched2 0 rqA rqB dbRace raceSched).phase1 = RPhase.finished ROutcome.success
    ∧ (runSched2 0 rqA rqB dbRace raceSched).phase2 = RPhase.finished ROutcome.success
    ∧ (runSched2 0 rqA rqB dbRace raceSched).db.events.map Event.ticketsSold = [2]
    ∧ dbRace.events.map Event.capacity = [1] := by
  decide

end Tickmate
